import Mathlib

/-!
Shallow embedding of the authentication/authorization core of the
`um_starter_jwt_go` user-management backend, together with theorems checking
the natural-language specification against it.

Source files embedded:
- `internal/models` (User, Role),
- `internal/auth` (JWTService: GenerateTokenPair, generateToken, ValidateToken,
  ValidateRefreshToken),
- `internal/middleware` (AuthMiddleware, RoleMiddleware),
- `internal/handlers/auth.go` (UpdateUserHandler, AssignRoleHandler,
  RemoveRoleHandler, RegisterHandler duplicate-email check, and the JSON
  response shapes of every handler that serializes a user),
- `cmd/api/main.go` (route wiring of PUT /users/:id).

Conventions of the embedding:
- machine integers become `Nat`/`Int` (ids are `uint` → `Nat`; Unix timestamps
  are `Int` seconds, matching jwt NumericDate granularity);
- `time.Now()` is threaded as an explicit `now : Int` parameter;
- the external SQL store is a `List User` / `List Role` value; gorm's
  soft-delete default scope (rows with non-null `deleted_at` are invisible to
  `First`/`Where` queries) is part of the lookup functions; a gorm driver
  failure distinct from "record not found" is an explicit `FetchRes.dbFailure`
  input to the request pipeline;
- HMAC-SHA256 is modelled as an ideal MAC: a signature is a value that
  records exactly the key and the signed content, so two signatures are equal
  iff key, declared algorithm and payload coincide (cryptographic collisions
  are ignored);
- a JWT compact-serialization string is modelled by `TokenStr`: either a
  well-formed signed token or an unparseable string.
-/

namespace UmApi

/-! ## Data model (`internal/models/user.go`) -/

mutual

/-- `models.User`. `Password` carries gorm/json tag `json:"-"`, `DeletedAt` is
gorm's soft-delete column (also `json:"-"`), `Roles` is the many-to-many
association. -/
inductive User : Type where
  | mk (id : Nat) (email : String) (password : String) (name : String)
       (tel : String) (age : Int) (address : String) (city : String)
       (country : String) (gender : String) (emailVerified : Bool)
       (roles : List Role) (createdAt : Int) (updatedAt : Int)
       (deletedAt : Option Int) : User

/-- `models.Role`, with its `Users []User` many-to-many back-reference
(json tag `users,omitempty`). -/
inductive Role : Type where
  | mk (id : Nat) (name : String) (users : List User)
       (createdAt : Int) (updatedAt : Int) : Role

end

def User.id : User → Nat
  | .mk i _ _ _ _ _ _ _ _ _ _ _ _ _ _ => i

def User.email : User → String
  | .mk _ e _ _ _ _ _ _ _ _ _ _ _ _ _ => e

def User.password : User → String
  | .mk _ _ p _ _ _ _ _ _ _ _ _ _ _ _ => p

def User.name : User → String
  | .mk _ _ _ n _ _ _ _ _ _ _ _ _ _ _ => n

def User.tel : User → String
  | .mk _ _ _ _ t _ _ _ _ _ _ _ _ _ _ => t

def User.age : User → Int
  | .mk _ _ _ _ _ a _ _ _ _ _ _ _ _ _ => a

def User.address : User → String
  | .mk _ _ _ _ _ _ a _ _ _ _ _ _ _ _ => a

def User.city : User → String
  | .mk _ _ _ _ _ _ _ c _ _ _ _ _ _ _ => c

def User.country : User → String
  | .mk _ _ _ _ _ _ _ _ c _ _ _ _ _ _ => c

def User.gender : User → String
  | .mk _ _ _ _ _ _ _ _ _ g _ _ _ _ _ => g

def User.emailVerified : User → Bool
  | .mk _ _ _ _ _ _ _ _ _ _ v _ _ _ _ => v

def User.roles : User → List Role
  | .mk _ _ _ _ _ _ _ _ _ _ _ r _ _ _ => r

def User.createdAt : User → Int
  | .mk _ _ _ _ _ _ _ _ _ _ _ _ c _ _ => c

def User.updatedAt : User → Int
  | .mk _ _ _ _ _ _ _ _ _ _ _ _ _ u _ => u

def User.deletedAt : User → Option Int
  | .mk _ _ _ _ _ _ _ _ _ _ _ _ _ _ d => d

def Role.id : Role → Nat
  | .mk i _ _ _ _ => i

def Role.name : Role → String
  | .mk _ n _ _ _ => n

def Role.users : Role → List User
  | .mk _ _ u _ _ => u

def Role.createdAt : Role → Int
  | .mk _ _ _ c _ => c

def Role.updatedAt : Role → Int
  | .mk _ _ _ _ u => u

/-! ## Token service (`internal/auth/jwt.go`) -/

/-- The signing algorithm declared in a JWT header. The service only ever
signs with and accepts `jwt.SigningMethodHS256`. -/
inductive Alg : Type where
  | HS256
  | other (s : String)
deriving DecidableEq

/-- `auth.CustomClaims`: the custom fields plus the registered claims the
service sets (ExpiresAt, IssuedAt, NotBefore, Issuer). -/
structure CustomClaims : Type where
  user_id : Nat
  email : String
  name : String
  roles : List String
  exp : Int
  iat : Int
  nbf : Int
  iss : String
deriving DecidableEq

/-- Ideal-MAC model of an HMAC-SHA256 tag: the tag is identified with the
(key, declared algorithm, signed payload) triple, so tag equality holds iff
all three coincide. -/
structure Sig : Type where
  key : String
  alg : Alg
  payload : CustomClaims
deriving DecidableEq

/-- Computing the HMAC tag over the encoded header+claims with a secret key
(`token.SignedString([]byte(js.secretKey))`). -/
def hmacSign (key : String) (alg : Alg) (payload : CustomClaims) : Sig :=
  ⟨key, alg, payload⟩

/-- A parsed JWS: declared algorithm, claims payload, and signature. -/
structure Jwt : Type where
  alg : Alg
  claims : CustomClaims
  sig : Sig
deriving DecidableEq

/-- A token string as handed to `ParseWithClaims`: either the compact
serialization of a signed token, or a string that fails to parse. -/
inductive TokenStr : Type where
  | malformed (raw : String)
  | signed (t : Jwt)
deriving DecidableEq

/-- `auth.JWTService`. -/
structure JWTService : Type where
  secretKey : String

/-- `auth.TokenPair`. -/
structure TokenPair : Type where
  accessToken : TokenStr
  refreshToken : TokenStr

/-- The role-name extraction loop at the top of `GenerateTokenPair`. -/
def roleNamesOf (u : User) : List String :=
  u.roles.map Role.name

/-- `JWTService.generateToken`: builds `CustomClaims` with
ExpiresAt = now + duration, IssuedAt = NotBefore = now, Issuer "um-api",
and signs with HS256 under the service secret. -/
def generateToken (js : JWTService) (u : User) (roleNames : List String)
    (duration : Int) (now : Int) : TokenStr :=
  let claims : CustomClaims :=
    { user_id := u.id, email := u.email, name := u.name, roles := roleNames,
      exp := now + duration, iat := now, nbf := now, iss := "um-api" }
  .signed ⟨Alg.HS256, claims, hmacSign js.secretKey Alg.HS256 claims⟩

/-- `JWTService.GenerateTokenPair`: access token with 15-minute lifetime,
refresh token with 7-day lifetime, same claim template otherwise. -/
def GenerateTokenPair (js : JWTService) (u : User) (now : Int) : TokenPair :=
  let roleNames := roleNamesOf u
  { accessToken := generateToken js u roleNames (15 * 60) now,
    refreshToken := generateToken js u roleNames (7 * 24 * 60 * 60) now }

/-- The distinct reasons `jwt.ParseWithClaims` can fail inside
`ValidateToken`; the Go function wraps each of them into a single
`fmt.Errorf("failed to parse token: %w", err)` error value and every caller
treats any error identically. -/
inductive TokenError : Type where
  | malformedToken
  | unexpectedSigningMethod
  | signatureInvalid
  | expired
  | notYetValid
deriving DecidableEq

/-- `JWTService.ValidateToken`: parse, reject a declared method other than
HS256 (the keyfunc), verify the HMAC signature against the stored secret,
and validate the registered claims — expired iff now is not before `exp`,
not yet valid iff now is before `nbf` (jwt/v5 validator semantics). -/
def ValidateToken (js : JWTService) (now : Int) (ts : TokenStr) :
    Except TokenError CustomClaims :=
  match ts with
  | .malformed _ => .error .malformedToken
  | .signed t =>
    if t.alg ≠ Alg.HS256 then .error .unexpectedSigningMethod
    else if t.sig ≠ hmacSign js.secretKey t.alg t.claims then
      .error .signatureInvalid
    else if t.claims.exp ≤ now then .error .expired
    else if now < t.claims.nbf then .error .notYetValid
    else .ok t.claims

/-- `JWTService.ValidateRefreshToken` is an alias for `ValidateToken`
(the source performs no refresh-kind check whatsoever). -/
def ValidateRefreshToken (js : JWTService) (now : Int) (ts : TokenStr) :
    Except TokenError CustomClaims :=
  ValidateToken js now ts

/-! ## Request pipeline (`internal/middleware/auth.go`, route wiring in
`cmd/api/main.go`) -/

/-- Outcome of a middleware step: either the request is aborted with an HTTP
status and an error message body, or it proceeds with the loaded user. -/
inductive MwResult : Type where
  | abortWith (status : Nat) (msg : String)
  | next (u : User)

/-- Result of the gorm query `db.Preload("Roles").First(&user, claims.UserID)`
as the middleware observes it: a row, `gorm.ErrRecordNotFound`, or any other
driver/storage error. -/
inductive FetchRes : Type where
  | found (u : User)
  | recordNotFound
  | dbFailure

/-- gorm's `First(&user, id)` under the default soft-delete scope: the row
with this primary key is visible only while `deleted_at` is null. -/
def dbFirstUser (store : List User) (id : Nat) : FetchRes :=
  match store.find? (fun u => u.id == id && u.deletedAt.isNone) with
  | some u => .found u
  | none => .recordNotFound

/-- The LoadIdentity step of `AuthMiddleware` (lines 43–53): record-not-found
maps to 401 "User not found", any other store error to 500 "Database error",
otherwise the user is attached to the context. -/
def authLoadStep (r : FetchRes) : MwResult :=
  match r with
  | .found u => .next u
  | .recordNotFound => .abortWith 401 "User not found"
  | .dbFailure => .abortWith 500 "Database error"

/-- `AuthMiddleware` from the extracted bearer token string onward: validate
the token (any validation error maps to 401 "Invalid or expired token"),
then load the identity by the subject id in the claims. -/
def authPipeline (js : JWTService) (now : Int) (store : List User)
    (ts : TokenStr) : MwResult :=
  match ValidateToken js now ts with
  | .error _ => .abortWith 401 "Invalid or expired token"
  | .ok c => authLoadStep (dbFirstUser store c.user_id)

/-- The nested role-scan loop of `RoleMiddleware`: does the user hold at
least one of the allowed roles (exact string comparison on role names)? -/
def hasAnyAllowedRole (userRoles : List Role) (allowedRoles : List String) :
    Bool :=
  userRoles.any (fun userRole =>
    allowedRoles.any (fun allowedRole => userRole.name == allowedRole))

/-- `RoleMiddleware(allowedRoles...)`: 401 when no user is in the context,
403 "Insufficient permissions" when the role scan finds no allowed role,
otherwise proceed. -/
def RoleMiddleware (allowedRoles : List String) (ctxUser : Option User) :
    MwResult :=
  match ctxUser with
  | none => .abortWith 401 "Unauthorized"
  | some u =>
    if hasAnyAllowedRole u.roles allowedRoles then .next u
    else .abortWith 403 "Insufficient permissions"

/-! ## User handlers (`internal/handlers/auth.go`) -/

/-- `handlers.UpdateUserRequest` (all fields optional; absent JSON fields
decode to the Go zero value: "" for strings, 0 for Age). -/
structure UpdateUserRequest : Type where
  name : String
  tel : String
  age : Int
  address : String
  city : String
  country : String
  gender : String

/-- Go's `string(rune(n))`: the one-character string whose code point is `n`
(for the code-point range the handlers exercise). This is what
`UpdateUserHandler` compares the `:id` path parameter against — NOT the
decimal representation of `n`. -/
def runeStr (n : Nat) : String :=
  String.mk [Char.ofNat n]

/-- The admin scan inside `UpdateUserHandler`. -/
def isAdminUser (u : User) : Bool :=
  u.roles.any (fun r => r.name == "admin")

/-- The field-update block of `UpdateUserHandler` (lines 331–355): each
request field overwrites the stored field only when it differs from the Go
zero value; Email, Password, Roles, ID, timestamps and the soft-delete mark
are not touched. (The source checks `req.Tel` twice; the second check is
idempotent.) -/
def applyUpdate (u : User) (req : UpdateUserRequest) : User :=
  match u with
  | .mk id email pw nm tel age addr city country gender ev roles ca ua da =>
    let nm := if req.name != "" then req.name else nm
    let tel := if req.tel != "" then req.tel else tel
    let age := if req.age != 0 then req.age else age
    let addr := if req.address != "" then req.address else addr
    let city := if req.city != "" then req.city else city
    let country := if req.country != "" then req.country else country
    let gender := if req.gender != "" then req.gender else gender
    let tel := if req.tel != "" then req.tel else tel
    .mk id email pw nm tel age addr city country gender ev roles ca ua da

/-- Outcome of `UpdateUserHandler`: an error response or the updated user
serialized with 200. -/
inductive UpdateOutcome : Type where
  | err (status : Nat) (msg : String)
  | okUpdated (u : User)

/-- `UpdateUserHandler` (after JSON binding): the self-vs-admin check
compares the `:id` path parameter with `string(rune(currentUser.ID))`; on
mismatch a non-admin caller gets 403 "Forbidden"; then the target row is
fetched by primary key (gorm parses the path parameter as the decimal id)
and the update block is applied. -/
def UpdateUserHandler (store : List User) (currentUser : User)
    (pathId : String) (req : UpdateUserRequest) : UpdateOutcome :=
  if pathId != runeStr currentUser.id && !isAdminUser currentUser then
    .err 403 "Forbidden"
  else
    match store.find? (fun u => toString u.id == pathId && u.deletedAt.isNone) with
    | none => .err 404 "User not found"
    | some target => .okUpdated (applyUpdate target req)

/-- The full route `PUT /users/:id` as wired in `cmd/api/main.go`: the
`/users` group runs `RoleMiddleware("admin")` before any user handler. -/
def putUsersRoute (store : List User) (currentUser : User) (pathId : String)
    (req : UpdateUserRequest) : UpdateOutcome :=
  match RoleMiddleware ["admin"] (some currentUser) with
  | .abortWith s m => .err s m
  | .next u => UpdateUserHandler store u pathId req

/-- Go `strings.TrimSpace`: drop leading and trailing whitespace
(character-list formulation, equivalent on the role-name strings in play). -/
def goTrimSpace (s : String) : String :=
  String.mk
    (((s.data.dropWhile Char.isWhitespace).reverse.dropWhile
      Char.isWhitespace).reverse)

/-- Go `strings.ToLower` (ASCII case folding suffices for the role names the
system uses). -/
def goToLower (s : String) : String :=
  String.mk (s.data.map Char.toLower)

/-- `strings.ToLower(strings.TrimSpace(x))` — the role-name normalization of
the assign/remove handlers. -/
def normalizeRoleName (s : String) : String :=
  goToLower (goTrimSpace s)

/-- gorm `FirstOrCreate(&role, models.Role{Name: roleName})` against the
role table: return the existing row with this name, or insert a fresh row
with the next primary key. -/
def firstOrCreateRole (roleStore : List Role) (nm : String) :
    Role × List Role :=
  match roleStore.find? (fun r => r.name == nm) with
  | some r => (r, roleStore)
  | none =>
    let r : Role := .mk (roleStore.foldl (fun m r2 => max m r2.id) 0 + 1) nm [] 0 0
    (r, roleStore ++ [r])

/-- The association append `db.Model(&user).Association("Roles").Append(&role)`. -/
def addRoleToUser (u : User) (r : Role) : User :=
  match u with
  | .mk id email pw nm tel age addr city country gender ev roles ca ua da =>
    .mk id email pw nm tel age addr city country gender ev (roles ++ [r]) ca ua da

/-- The association delete: removes the first role whose name matched
(role names are unique, so at most one matches). -/
def removeRoleFromUser (u : User) (nm : String) : User :=
  match u with
  | .mk id email pw nm0 tel age addr city country gender ev roles ca ua da =>
    .mk id email pw nm0 tel age addr city country gender ev
      (roles.eraseP (fun r => r.name == nm)) ca ua da

/-- `AssignRoleHandler` after the target user has been loaded: normalize the
role name, find-or-create the role, reject with 400 "User already has this
role" when the user already holds a role with that id, else append.
Returns (HTTP status, message, stored user afterwards, role table
afterwards). -/
def AssignRoleHandler (roleStore : List Role) (u : User) (rawName : String) :
    Nat × String × User × List Role :=
  let nm := normalizeRoleName rawName
  let res := firstOrCreateRole roleStore nm
  if u.roles.any (fun r => r.id == res.1.id) then
    (400, "User already has this role", u, res.2)
  else
    (200, "", addRoleToUser u res.1, res.2)

/-- `RemoveRoleHandler` after the target user has been loaded: normalize the
role name, reject with 400 "User doesn't have this role" when no held role
has that name, else delete the association. Returns (HTTP status, message,
stored user afterwards). -/
def RemoveRoleHandler (u : User) (rawName : String) : Nat × String × User :=
  let nm := normalizeRoleName rawName
  if u.roles.any (fun r => r.name == nm) then
    (200, "", removeRoleFromUser u nm)
  else
    (400, "User doesn't have this role", u)

/-- The duplicate-email guard of `RegisterHandler` (lines 73–81): a visible
(non-soft-deleted) user with the same email aborts registration with
400 "User already exists". -/
def registerDuplicateCheck (store : List User) (email : String) :
    Option (Nat × String) :=
  match store.find? (fun u => u.email == email && u.deletedAt.isNone) with
  | some _ => some (400, "User already exists")
  | none => none

/-! ## JSON serialization (Go `encoding/json` on the tagged structs) -/

/-- A JSON value. -/
inductive Jval : Type where
  | str (s : String)
  | num (n : Int)
  | jbool (b : Bool)
  | arr (xs : List Jval)
  | obj (fields : List (String × Jval))

mutual

/-- `json.Marshal` of a `models.User` following the struct tags: every field
in declaration order except `Password` and `DeletedAt`, which carry
`json:"-"` and are never emitted. -/
def userJson : User → Jval
  | .mk id email _pw nm tel age addr city country gender ev roles ca ua _da =>
    Jval.obj
      [("id", .num (Int.ofNat id)), ("email", .str email), ("name", .str nm),
       ("tel", .str tel), ("age", .num age), ("address", .str addr),
       ("city", .str city), ("country", .str country),
       ("gender", .str gender), ("email_verified", .jbool ev),
       ("roles", .arr (rolesJson roles)), ("created_at", .num ca),
       ("updated_at", .num ua)]

def rolesJson : List Role → List Jval
  | [] => []
  | r :: rs => roleJson r :: rolesJson rs

/-- `json.Marshal` of a `models.Role`: the `Users` back-reference carries
`omitempty` and is dropped when the slice is empty (the handlers never
populate it, but the encoding is modelled for arbitrary values). -/
def roleJson : Role → Jval
  | .mk id nm users ca ua =>
    Jval.obj
      (("id", .num (Int.ofNat id)) :: ("name", .str nm) ::
        (match users with
         | [] => [("created_at", .num ca), ("updated_at", .num ua)]
         | u :: us =>
           [("users", .arr (userJson u :: usersJson us)),
            ("created_at", .num ca), ("updated_at", .num ua)]))

def usersJson : List User → List Jval
  | [] => []
  | u :: us => userJson u :: usersJson us

end

mutual

/-- Does the key `k` occur anywhere (at any nesting depth) in a JSON value? -/
def hasKey (k : String) : Jval → Bool
  | .str _ => false
  | .num _ => false
  | .jbool _ => false
  | .arr xs => hasKeyArr k xs
  | .obj fs => hasKeyObj k fs

def hasKeyArr (k : String) : List Jval → Bool
  | [] => false
  | v :: vs => hasKey k v || hasKeyArr k vs

def hasKeyObj (k : String) : List (String × Jval) → Bool
  | [] => false
  | f :: fs => f.1 == k || hasKey k f.2 || hasKeyObj k fs

end

/-- The `handlers.SuccessResponse` envelope `{"data": ...}`. -/
def envelope (v : Jval) : Jval :=
  .obj [("data", v)]

/-- Success body of `RegisterHandler` and `LoginHandler`:
`{"data": {"user": ..., "access_token": ..., "refresh_token": ...}}`
(the token fields hold the compact-serialized token strings). -/
def registerLoginBody (u : User) (accessTok refreshTok : String) : Jval :=
  envelope (.obj [("user", userJson u), ("access_token", .str accessTok),
                  ("refresh_token", .str refreshTok)])

/-- Success body of `RefreshHandler`. -/
def refreshBody (accessTok refreshTok : String) : Jval :=
  envelope (.obj [("access_token", .str accessTok),
                  ("refresh_token", .str refreshTok)])

/-- Success body of `ProfileHandler`, `GetUserByIDHandler`,
`UpdateUserHandler`, `AssignRoleHandler` and `RemoveRoleHandler`: a single
serialized user in the data envelope. -/
def singleUserBody (u : User) : Jval :=
  envelope (userJson u)

/-- Success body of `GetAllUsersHandler`: the serialized user list. -/
def usersListBody (us : List User) : Jval :=
  envelope (.arr (usersJson us))

/-! ## Auxiliary definitions for the statements -/

/-- Claims payload of a token string, when it is well formed. -/
def TokenStr.claims? : TokenStr → Option CustomClaims
  | .malformed _ => none
  | .signed t => some t.claims

/-- Declared algorithm of a token string, when it is well formed. -/
def TokenStr.alg? : TokenStr → Option Alg
  | .malformed _ => none
  | .signed t => some t.alg

/-- Signature of a token string, when it is well formed. -/
def TokenStr.sig? : TokenStr → Option Sig
  | .malformed _ => none
  | .signed t => some t.sig

/-- gorm soft delete (`db.Delete(&user)` on a model with a `DeletedAt`
column): the row stays but its `deleted_at` is set. -/
def markDeleted (u : User) (t : Int) : User :=
  match u with
  | .mk id email pw nm tel age addr city country gender ev roles ca ua _da =>
    .mk id email pw nm tel age addr city country gender ev roles ca ua (some t)

/-- The seeded "user" role. -/
def userRoleSeed : Role := .mk 1 "user" [] 0 0

/-- The seeded "admin" role. -/
def adminRoleSeed : Role := .mk 2 "admin" [] 0 0

/-- A registered non-admin user (id 53, role set exactly {"user"}). -/
def sampleUser : User :=
  .mk 53 "user@example.com" "bcrypt-hash-opaque" "Sample User" "" 0 "" "" "" ""
    false [userRoleSeed] 0 0 none

/-- A user holding "admin" alongside other roles. -/
def sampleMultiRoleUser : User :=
  .mk 7 "multi@example.com" "bcrypt-hash-opaque" "Multi Role" "" 0 "" "" "" ""
    false [userRoleSeed, adminRoleSeed, Role.mk 3 "editor" [] 0 0] 0 0 none

/-- An update request whose every field is the Go zero value (the JSON body
`{}` decodes to this). -/
def emptyUpdateReq : UpdateUserRequest := ⟨"", "", 0, "", "", "", ""⟩

/-- A sample JWT service. -/
def sampleService : JWTService := ⟨"super-secret"⟩

/-- Sample claims for tampered-token statements. -/
def sampleClaims : CustomClaims :=
  { user_id := 53, email := "user@example.com", name := "Sample User",
    roles := ["user"], exp := 100, iat := 0, nbf := 0, iss := "um-api" }

/-- A token whose declared algorithm is not HS256 (e.g. an alg-confusion
attempt), signed over `sampleClaims`. -/
def badAlgJwt : Jwt :=
  ⟨Alg.other "none", sampleClaims,
   hmacSign sampleService.secretKey (Alg.other "none") sampleClaims⟩

/-! ## Helper lemmas -/

mutual

/-- No serialized user object contains a "password" key at any depth. -/
theorem userJson_no_password : ∀ (u : User),
    hasKey "password" (userJson u) = false
  | .mk _id _email _pw _nm _tel _age _addr _city _country _gender _ev roles
      _ca _ua _da => by
    simp +decide [userJson, hasKey, hasKeyObj]
    exact rolesJson_no_password roles

theorem rolesJson_no_password : ∀ (rs : List Role),
    hasKeyArr "password" (rolesJson rs) = false
  | [] => by simp [rolesJson, hasKeyArr]
  | r :: rs => by
    simp [rolesJson, hasKeyArr]
    exact ⟨roleJson_no_password r, rolesJson_no_password rs⟩

theorem roleJson_no_password : ∀ (r : Role),
    hasKey "password" (roleJson r) = false
  | .mk _id _nm [] _ca _ua => by
    simp +decide [roleJson, hasKey, hasKeyObj]
  | .mk _id _nm (u :: us) _ca _ua => by
    simp +decide [roleJson, hasKey, hasKeyObj, hasKeyArr]
    exact ⟨userJson_no_password u, usersJson_no_password us⟩

theorem usersJson_no_password : ∀ (us : List User),
    hasKeyArr "password" (usersJson us) = false
  | [] => by simp [usersJson, hasKeyArr]
  | u :: us => by
    simp [usersJson, hasKeyArr]
    exact ⟨userJson_no_password u, usersJson_no_password us⟩

end

/-- The nested loop of `RoleMiddleware` succeeds exactly on a non-empty
intersection of the user's role-name set with the allowed set. -/
theorem hasAnyAllowedRole_iff (roles : List Role) (allowed : List String) :
    hasAnyAllowedRole roles allowed = true ↔
      ∃ r ∈ roles, r.name ∈ allowed := by
  simp [hasAnyAllowedRole, List.any_eq_true]

/-! ## Claim theorems -/

/-- C2: `ValidateRefreshToken` is extensionally equal to `ValidateToken` on
every token string, so in particular a still-unexpired access token straight
out of `GenerateTokenPair` is accepted by the refresh-validation path. -/
theorem validateRefresh_eq_validate (js : JWTService) (now : Int) (u : User)
    (ts : TokenStr) :
    ValidateRefreshToken js now ts = ValidateToken js now ts ∧
    ValidateRefreshToken js now (GenerateTokenPair js u now).accessToken =
      Except.ok { user_id := u.id, email := u.email, name := u.name,
                  roles := roleNamesOf u, exp := now + 15 * 60, iat := now,
                  nbf := now, iss := "um-api" } := by
  have hexp : ¬(now + 15 * 60 ≤ now) := by omega
  have hnbf : ¬(now < now) := by omega
  exact ⟨rfl, by
    simp [ValidateRefreshToken, ValidateToken, GenerateTokenPair,
      generateToken, hmacSign, hexp, hnbf]⟩

/-- C3: for every identity and every issuance time, issuing a pair and
immediately validating the access token under the same secret succeeds and
returns claims whose subject id is the identity's id and whose role list is
the identity's role-name list at issuance. -/
theorem issue_then_validate_roundtrip (js : JWTService) (u : User)
    (now : Int) :
    ∃ c, ValidateToken js now (GenerateTokenPair js u now).accessToken =
        Except.ok c ∧
      c.user_id = u.id ∧ c.roles = u.roles.map Role.name := by
  have hexp : ¬(now + 15 * 60 ≤ now) := by omega
  have hnbf : ¬(now < now) := by omega
  refine ⟨{ user_id := u.id, email := u.email, name := u.name,
            roles := roleNamesOf u, exp := now + 15 * 60, iat := now,
            nbf := now, iss := "um-api" }, ?_, rfl, rfl⟩
  simp [ValidateToken, GenerateTokenPair, generateToken, hmacSign, hexp, hnbf]

/-- C7: both tokens of `GenerateTokenPair` are built from the same claim
template (subject id, email, name, role-name snapshot, issuer "um-api"),
with not-before = issued-at = the issuance time, both HMAC-SHA256-signed
with the service secret, differing only in expiry: access 15 minutes,
refresh 7 days. -/
theorem token_pair_same_template (js : JWTService) (u : User) (now : Int) :
    (GenerateTokenPair js u now).accessToken.alg? = some Alg.HS256 ∧
    (GenerateTokenPair js u now).refreshToken.alg? = some Alg.HS256 ∧
    (GenerateTokenPair js u now).accessToken.claims? =
      some { user_id := u.id, email := u.email, name := u.name,
             roles := roleNamesOf u, exp := now + 15 * 60, iat := now,
             nbf := now, iss := "um-api" } ∧
    (GenerateTokenPair js u now).refreshToken.claims? =
      some { user_id := u.id, email := u.email, name := u.name,
             roles := roleNamesOf u, exp := now + 7 * 24 * 60 * 60,
             iat := now, nbf := now, iss := "um-api" } ∧
    (GenerateTokenPair js u now).accessToken.sig? =
      some (hmacSign js.secretKey Alg.HS256
        { user_id := u.id, email := u.email, name := u.name,
          roles := roleNamesOf u, exp := now + 15 * 60, iat := now,
          nbf := now, iss := "um-api" }) ∧
    (GenerateTokenPair js u now).refreshToken.sig? =
      some (hmacSign js.secretKey Alg.HS256
        { user_id := u.id, email := u.email, name := u.name,
          roles := roleNamesOf u, exp := now + 7 * 24 * 60 * 60, iat := now,
          nbf := now, iss := "um-api" }) :=
  ⟨rfl, rfl, rfl, rfl, rfl, rfl⟩

/-- C4: `RoleMiddleware` lets a request through exactly when the loaded
identity's role-name set meets the route's allowed set (exact string
comparison); with required set {"admin"}, a user whose role set is exactly
{"user"} is denied 403 and a user holding "admin" alongside other roles is
allowed. -/
theorem role_gate_intersection (u : User) (allowed : List String) :
    (RoleMiddleware allowed (some u) = MwResult.next u ↔
      ∃ r ∈ u.roles, r.name ∈ allowed) ∧
    RoleMiddleware ["admin"] (some sampleUser) =
      .abortWith 403 "Insufficient permissions" ∧
    RoleMiddleware ["admin"] (some sampleMultiRoleUser) =
      .next sampleMultiRoleUser := by
  refine ⟨?_, rfl, rfl⟩
  rw [← hasAnyAllowedRole_iff]
  by_cases hb : hasAnyAllowedRole u.roles allowed
  · simp [RoleMiddleware, hb]
  · simp [RoleMiddleware, hb]

/-- C5: `ValidateToken` rejects a parsed token whenever its signature does
not verify under the stored secret, its expiry is not in the future, its
not-before is in the future, or its declared algorithm is not HS256 — and in
every one of these cases the outcome the pipeline exposes is the identical
401 "Invalid or expired token", with no expired-vs-tampered distinction. -/
theorem validate_uniform_rejection (js : JWTService) (now : Int)
    (store : List User) (t : Jwt)
    (h : t.sig ≠ hmacSign js.secretKey t.alg t.claims ∨ t.claims.exp ≤ now ∨
      now < t.claims.nbf ∨ t.alg ≠ Alg.HS256) :
    (∃ e, ValidateToken js now (.signed t) = .error e) ∧
    authPipeline js now store (.signed t) =
      .abortWith 401 "Invalid or expired token" := by
  have herr : ∃ e, ValidateToken js now (.signed t) = .error e := by
    simp only [ValidateToken]
    split
    · exact ⟨_, rfl⟩
    · split
      · exact ⟨_, rfl⟩
      · split
        · exact ⟨_, rfl⟩
        · split
          · exact ⟨_, rfl⟩
          · rename_i c1 c2 c3 c4
            rcases h with hs | he | hn | ha
            · exact absurd hs c2
            · exact absurd he c3
            · exact absurd hn c4
            · exact absurd ha c1
  refine ⟨herr, ?_⟩
  obtain ⟨e, he⟩ := herr
  simp [authPipeline, he]

/-- Witness for C5 at a concrete algorithm-confusion token. -/
theorem validate_uniform_rejection_witness :
    (∃ e, ValidateToken sampleService 0 (.signed badAlgJwt) = .error e) ∧
    authPipeline sampleService 0 [] (.signed badAlgJwt) =
      .abortWith 401 "Invalid or expired token" :=
  validate_uniform_rejection sampleService 0 [] badAlgJwt
    (Or.inr (Or.inr (Or.inr (by decide))))

/-- C6: in the LoadIdentity step, a subject id with no visible row (absent
or soft-deleted — indistinguishable outcomes) yields 401 "User not found",
any other storage error yields 500 "Database error", and a freshly issued,
still-unexpired access token for an identity that has since been
soft-deleted fails the full pipeline with the same 401. -/
theorem load_identity_errors (store : List User) (uid : Nat)
    (js : JWTService) (u : User) (now t : Int)
    (h : ∀ v ∈ store, v.id = uid → v.deletedAt ≠ none) :
    authLoadStep (dbFirstUser store uid) = .abortWith 401 "User not found" ∧
    authLoadStep FetchRes.dbFailure = .abortWith 500 "Database error" ∧
    authPipeline js now [markDeleted u t]
        (GenerateTokenPair js u now).accessToken =
      .abortWith 401 "User not found" := by
  refine ⟨?_, rfl, ?_⟩
  · have hf : store.find? (fun v => v.id == uid && v.deletedAt.isNone) =
        none := by
      rw [List.find?_eq_none]
      intro v hv
      by_cases hid : v.id = uid
      · have hd := h v hv hid
        simp [hid, Option.isNone_iff_eq_none, hd]
      · simp [hid]
    simp [dbFirstUser, hf, authLoadStep]
  · have hexp : ¬(now + 15 * 60 ≤ now) := by omega
    have hnbf : ¬(now < now) := by omega
    simp only [authPipeline, ValidateToken, GenerateTokenPair, generateToken,
      hmacSign, hexp, hnbf]
    cases u with
    | mk id email pw nm tel age addr city country gender ev roles ca ua da =>
      simp [markDeleted, dbFirstUser, List.find?, User.id, User.deletedAt,
        authLoadStep]

/-- Witness for C6: a store whose only row with id 53 is soft-deleted. -/
theorem load_identity_errors_witness :
    authLoadStep (dbFirstUser [markDeleted sampleUser 5] 53) =
      .abortWith 401 "User not found" ∧
    authLoadStep FetchRes.dbFailure = .abortWith 500 "Database error" ∧
    authPipeline sampleService 0 [markDeleted sampleUser 5]
        (GenerateTokenPair sampleService sampleUser 0).accessToken =
      .abortWith 401 "User not found" :=
  load_identity_errors [markDeleted sampleUser 5] 53 sampleService sampleUser
    0 5 (by
      intro v hv _
      rw [List.mem_singleton] at hv
      subst hv
      simp [markDeleted, sampleUser, User.deletedAt])

/-- C1 (code evaluation): the source denies a non-admin identity updating
its own record. `string(rune(53))` is "5", not "53", so the handler's
self-check can never match the decimal path parameter, and independently the
route wiring places PUT /users/:id behind `RoleMiddleware("admin")`: user 53
with role set {"user"} sending PUT /users/53 gets 403 from the route gate,
and would get 403 "Forbidden" from the handler's own check as well. -/
theorem self_update_denied_by_code :
    runeStr 53 = "5" ∧
    putUsersRoute [sampleUser] sampleUser "53" emptyUpdateReq =
      .err 403 "Insufficient permissions" ∧
    UpdateUserHandler [sampleUser] sampleUser "53" emptyUpdateReq =
      .err 403 "Forbidden" :=
  ⟨rfl, rfl, rfl⟩

/-- C8: assigning a role the identity already holds and removing a role it
does not hold both fail, mapped to HTTP 400 (not 409) exactly like the
duplicate-email conflict on registration, and on these error paths the
identity's stored state is returned unchanged. -/
theorem role_conflicts_map_to_400 (roleStore : List Role) (u : User)
    (raw raw2 : String) (store : List User) (email : String)
    (h1 : u.roles.any
      (fun r => r.id == (firstOrCreateRole roleStore
        (normalizeRoleName raw)).1.id) = true)
    (h2 : u.roles.any (fun r => r.name == normalizeRoleName raw2) = false)
    (h3 : (store.find?
      (fun v => v.email == email && v.deletedAt.isNone)).isSome = true) :
    AssignRoleHandler roleStore u raw =
      (400, "User already has this role", u,
        (firstOrCreateRole roleStore (normalizeRoleName raw)).2) ∧
    RemoveRoleHandler u raw2 = (400, "User doesn't have this role", u) ∧
    registerDuplicateCheck store email = some (400, "User already exists") := by
  refine ⟨?_, ?_, ?_⟩
  · simp [AssignRoleHandler, h1]
  · simp [RemoveRoleHandler, h2]
  · obtain ⟨v, hv⟩ := Option.isSome_iff_exists.mp h3
    simp [registerDuplicateCheck, hv]

/-- Witness for C8: user 53 already holds "user" (assigning " USER "
normalizes to it and conflicts), does not hold "editor" (removal conflicts),
and the store already contains a visible user with the sample email. -/
theorem role_conflicts_map_to_400_witness :
    AssignRoleHandler [userRoleSeed, adminRoleSeed] sampleUser " USER " =
      (400, "User already has this role", sampleUser,
        (firstOrCreateRole [userRoleSeed, adminRoleSeed]
          (normalizeRoleName " USER ")).2) ∧
    RemoveRoleHandler sampleUser "editor" =
      (400, "User doesn't have this role", sampleUser) ∧
    registerDuplicateCheck [sampleUser] "user@example.com" =
      some (400, "User already exists") :=
  role_conflicts_map_to_400 [userRoleSeed, adminRoleSeed] sampleUser " USER "
    "editor" [sampleUser] "user@example.com" (by decide) (by decide)
    (by decide)

/-- C10: the update operation never changes the target's id, email, password
hash, role set or soft-delete mark, and every request field left at its Go
zero value (empty string, or 0 for age) leaves the corresponding stored
field unchanged. -/
theorem update_frame_conditions (u : User) (req : UpdateUserRequest) :
    (applyUpdate u req).email = u.email ∧
    (applyUpdate u req).password = u.password ∧
    (applyUpdate u req).roles = u.roles ∧
    (applyUpdate u req).id = u.id ∧
    (applyUpdate u req).deletedAt = u.deletedAt ∧
    (req.name = "" → (applyUpdate u req).name = u.name) ∧
    (req.tel = "" → (applyUpdate u req).tel = u.tel) ∧
    (req.age = 0 → (applyUpdate u req).age = u.age) ∧
    (req.address = "" → (applyUpdate u req).address = u.address) ∧
    (req.city = "" → (applyUpdate u req).city = u.city) ∧
    (req.country = "" → (applyUpdate u req).country = u.country) ∧
    (req.gender = "" → (applyUpdate u req).gender = u.gender) := by
  cases u with
  | mk id email pw nm tel age addr city country gender ev roles ca ua da =>
    refine ⟨rfl, rfl, rfl, rfl, rfl, ?_, ?_, ?_, ?_, ?_, ?_, ?_⟩ <;>
      (intro hz; simp [applyUpdate, hz, User.name, User.tel, User.age,
        User.address, User.city, User.country, User.gender])

/-- Witness for C10: the empty update request changes nothing on the sample
user. -/
theorem update_frame_conditions_witness :
    (applyUpdate sampleUser emptyUpdateReq).name = sampleUser.name ∧
    (applyUpdate sampleUser emptyUpdateReq).age = sampleUser.age ∧
    (applyUpdate sampleUser emptyUpdateReq).password = sampleUser.password :=
  ⟨(update_frame_conditions sampleUser emptyUpdateReq).2.2.2.2.2.1 rfl,
   (update_frame_conditions sampleUser emptyUpdateReq).2.2.2.2.2.2.2.1 rfl,
   (update_frame_conditions sampleUser emptyUpdateReq).2.1⟩

/-- C9: no success body of an operation that serializes an identity
(registration, login, token refresh, profile, user listing, user fetch,
update, role assignment/removal) contains a "password" key at any nesting
depth. -/
theorem password_absent_from_serialized_output (u : User) (us : List User)
    (accessTok refreshTok : String) :
    hasKey "password" (registerLoginBody u accessTok refreshTok) = false ∧
    hasKey "password" (refreshBody accessTok refreshTok) = false ∧
    hasKey "password" (singleUserBody u) = false ∧
    hasKey "password" (usersListBody us) = false := by
  refine ⟨?_, ?_, ?_, ?_⟩ <;>
    simp +decide [registerLoginBody, refreshBody, singleUserBody,
      usersListBody, envelope, hasKey, hasKeyObj, hasKeyArr,
      userJson_no_password, usersJson_no_password]

end UmApi
